import Mathlib

/-!
# Verification of the customer-support ticket triage workflow

This file embeds the data model and operations of the customer-support
agent repository (a LangGraph workflow that collects customer information,
fetches a ticket from an issue tracker, enriches it with model calls and
tool invocations, and writes a generated response back), and proves or
refutes the stated properties of its specification.

External collaborators (the language model, the MCP database backend, the
ticket tracker, the memory store) are modelled as oracle parameters: each
embedded node or tool takes the collaborator's response for the current
call as an explicit argument, and exceptions raised by collaborators are
modelled with `Except`.
-/

set_option maxRecDepth 100000

namespace CustomerSupport

/-! ## Python string primitives

Lean models of the Python `str` operations the source uses: `str.strip()`,
`str.split('\n')`, truthiness, and `dict.get`.  Strings are handled through
their underlying character lists. -/

/-- The ASCII whitespace characters stripped by Python's `str.strip()`
(the source only ever strips ASCII text). -/
def pyIsSpace (c : Char) : Bool :=
  c == ' ' || c == '\t' || c == '\n' || c == '\r' || c == '\x0b' || c == '\x0c'

/-- Characters of a string with leading and trailing whitespace removed,
as done by Python's `str.strip()`. -/
def stripChars (l : List Char) : List Char :=
  ((l.dropWhile pyIsSpace).reverse.dropWhile pyIsSpace).reverse

/-- Python's `str.strip()`. -/
def pyStrip (s : String) : String :=
  ⟨stripChars s.data⟩

/-- Split a character list at every newline, Python-style: `"".split('\n')`
is `[""]`, and a trailing newline yields a trailing empty piece. -/
def splitNlChars : List Char → List (List Char)
  | [] => [[]]
  | c :: rest =>
    let r := splitNlChars rest
    if c = '\n' then [] :: r
    else
      match r with
      | [] => [[c]]
      | h :: t => (c :: h) :: t

/-- Python's `text.split('\n')`. -/
def pySplitLines (s : String) : List String :=
  (splitNlChars s.data).map (fun l => ⟨l⟩)

/-- Python truthiness of an optional string field read via `state.get(...)`:
`None` and the empty string are falsy. -/
def truthyOpt : Option String → Bool
  | none => false
  | some s => !s.isEmpty

/-- Python truthiness of a plain string. -/
def truthyStr (s : String) : Bool :=
  !s.isEmpty

/-- Python's `d.get(key, default)` over an association-list model of a dict. -/
def pyDictGet (args : List (String × String)) (key : String) (dflt : String) : String :=
  match args.find? (fun kv => kv.1 == key) with
  | some kv => kv.2
  | none => dflt

/-! ## Identifier sanitization (`services/agentcore_memory.py`, `_sanitize_id`)

The source replaces `@` with `-at-`, `.` with `-`, replaces every character
outside `[a-zA-Z0-9-_/:]` with `-`, and prefixes `id-` when the result does
not start with an alphanumeric character.  The source's early return on a
falsy identifier is the identity on the empty string, which the list
pipeline below also produces. -/

/-- The constrained character class `[a-zA-Z0-9-_/:]` kept by the
sanitizer's regular-expression substitution. -/
def validIdChar (c : Char) : Bool :=
  c.isAlphanum || c == '-' || c == '_' || c == '/' || c == ':'

/-- `identifier.replace("@", "-at-")` on character lists. -/
def replaceAtSign : List Char → List Char
  | [] => []
  | c :: rest =>
    (if c = '@' then ['-', 'a', 't', '-'] else [c]) ++ replaceAtSign rest

/-- The three character-rewriting passes of `_sanitize_id`:
`@` to `-at-`, then `.` to `-`, then the regex substitution keeping only
`validIdChar` characters. -/
def sanitizeCharsCore (l : List Char) : List Char :=
  ((replaceAtSign l).map (fun c => if c = '.' then '-' else c)).map
    (fun c => if validIdChar c then c else '-')

/-- The final step of `_sanitize_id`: prefix `id-` when the (non-empty)
rewritten identifier does not start with an alphanumeric character. -/
def sanitizePrefixFix : List Char → List Char
  | [] => []
  | c :: rest =>
    if c.isAlphanum then c :: rest else 'i' :: 'd' :: '-' :: c :: rest

/-- Full `_sanitize_id` on character lists: the rewriting passes followed by
the `id-` prefix fix-up when the result does not start alphanumeric. -/
def sanitizeChars (l : List Char) : List Char :=
  sanitizePrefixFix (sanitizeCharsCore l)

/-- `AgentCoreMemoryService._sanitize_id`. -/
def sanitize_id (s : String) : String :=
  ⟨sanitizeChars s.data⟩

/-! ## ADF conversion (`services/jira.py`, `_convert_text_to_adf`) -/

/-- An ADF inline text node: `{"type": "text", "text": ...}`. -/
structure AdfTextNode where
  text : String
  deriving Repr, DecidableEq

/-- An ADF paragraph node: `{"type": "paragraph", "content": [...]}`. -/
structure AdfParagraph where
  content : List AdfTextNode
  deriving Repr, DecidableEq

/-- An ADF document: `{"version": 1, "type": "doc", "content": [...]}`. -/
structure AdfDoc where
  version : Nat
  content : List AdfParagraph
  deriving Repr, DecidableEq

/-- `JiraService._convert_text_to_adf`: one paragraph per line whose strip
is non-empty, holding the stripped text; one empty paragraph when no line
qualifies. -/
def convert_text_to_adf (text : String) : AdfDoc :=
  let paragraphs := pySplitLines text
  let content :=
    (paragraphs.filter (fun p => truthyStr (pyStrip p))).map
      (fun p => AdfParagraph.mk [AdfTextNode.mk (pyStrip p)])
  let content := if content.isEmpty then [AdfParagraph.mk []] else content
  AdfDoc.mk 1 content

/-- The non-blank newline-delimited lines of a text, in the sense used by
the ADF conversion (a line is blank when its Python strip is empty). -/
def nonBlankLines (text : String) : List String :=
  (pySplitLines text).filter (fun p => truthyStr (pyStrip p))

/-- A minimal well-formedness predicate for email addresses: a non-empty
local part, an `@`, and a non-empty domain. -/
def IsValidEmail (e : String) : Prop :=
  ∃ lp dom : List Char, e.data = lp ++ '@' :: dom ∧ lp ≠ [] ∧ dom ≠ []

/-! ## Lemmas about identifier sanitization -/

lemma validIdChar_of_mem_core {l : List Char} {c : Char}
    (hc : c ∈ sanitizeCharsCore l) : validIdChar c = true := by
  unfold sanitizeCharsCore at hc
  rcases List.mem_map.mp hc with ⟨a, _, rfl⟩
  by_cases h : validIdChar a = true
  · simp [h]
  · rw [if_neg h]
    decide

lemma validIdChar_of_mem_sanitize {l : List Char} {c : Char}
    (hc : c ∈ sanitizeChars l) : validIdChar c = true := by
  unfold sanitizeChars at hc
  cases heq : sanitizeCharsCore l with
  | nil => rw [heq] at hc; simp [sanitizePrefixFix] at hc
  | cons c0 rest =>
    rw [heq] at hc
    simp only [sanitizePrefixFix] at hc
    by_cases ha : c0.isAlphanum = true
    · rw [if_pos ha] at hc
      exact validIdChar_of_mem_core (by rw [heq]; exact hc)
    · rw [if_neg ha] at hc
      simp only [List.mem_cons] at hc
      rcases hc with rfl | rfl | rfl | rfl | hc
      · decide
      · decide
      · decide
      · exact validIdChar_of_mem_core
          (by rw [heq]; exact List.mem_cons_self c rest)
      · exact validIdChar_of_mem_core
          (by rw [heq]; exact List.mem_cons.mpr (Or.inr hc))

lemma sanitizeChars_head_alnum {l : List Char} {c : Char} {t : List Char}
    (h : sanitizeChars l = c :: t) : c.isAlphanum = true := by
  unfold sanitizeChars at h
  cases heq : sanitizeCharsCore l with
  | nil => rw [heq] at h; simp [sanitizePrefixFix] at h
  | cons c0 rest =>
    rw [heq] at h
    simp only [sanitizePrefixFix] at h
    by_cases ha : c0.isAlphanum = true
    · rw [if_pos ha] at h
      injection h with h1 _
      rw [← h1]; exact ha
    · rw [if_neg ha] at h
      injection h with h1 _
      rw [← h1]; decide

lemma list_map_id_of_fixed {f : Char → Char} :
    ∀ {l : List Char}, (∀ c ∈ l, f c = c) → l.map f = l
  | [], _ => rfl
  | c :: rest, h => by
    simp only [List.map_cons, h c (List.mem_cons_self c rest)]
    rw [list_map_id_of_fixed (fun x hx => h x (List.mem_cons.mpr (.inr hx)))]

lemma replaceAtSign_id {l : List Char} (h : ∀ c ∈ l, c ≠ '@') :
    replaceAtSign l = l := by
  induction l with
  | nil => rfl
  | cons c rest ih =>
    have hc : c ≠ '@' := h c (List.mem_cons_self c rest)
    simp only [replaceAtSign, hc, if_false]
    rw [ih (fun x hx => h x (List.mem_cons.mpr (.inr hx)))]
    rfl

lemma sanitizeCharsCore_id {l : List Char} (h : ∀ c ∈ l, validIdChar c = true) :
    sanitizeCharsCore l = l := by
  unfold sanitizeCharsCore
  have h1 : replaceAtSign l = l :=
    replaceAtSign_id (fun c hc he => by
      subst he; exact absurd (h _ hc) (by decide))
  rw [h1]
  have h2 : l.map (fun c => if c = '.' then '-' else c) = l :=
    list_map_id_of_fixed (fun c hc => by
      have hne : c ≠ '.' := fun he => by
        subst he; exact absurd (h _ hc) (by decide)
      simp [hne])
  rw [h2]
  exact list_map_id_of_fixed (fun c hc => by simp [h c hc])

lemma replaceAtSign_ne_nil {c : Char} {rest : List Char} :
    replaceAtSign (c :: rest) ≠ [] := by
  unfold replaceAtSign
  by_cases h : c = '@' <;> simp [h]

lemma sanitizePrefixFix_ne_nil {a : Char} {b : List Char} :
    sanitizePrefixFix (a :: b) ≠ [] := by
  simp only [sanitizePrefixFix]
  split <;> simp

lemma sanitizeChars_ne_nil {l : List Char} (h : l ≠ []) :
    sanitizeChars l ≠ [] := by
  cases l with
  | nil => exact absurd rfl h
  | cons c rest =>
    unfold sanitizeChars sanitizeCharsCore
    cases hr : replaceAtSign (c :: rest) with
    | nil => exact absurd hr replaceAtSign_ne_nil
    | cons a b =>
      simp only [List.map_cons]
      exact sanitizePrefixFix_ne_nil

lemma sanitizeChars_idem (l : List Char) :
    sanitizeChars (sanitizeChars l) = sanitizeChars l := by
  have hvalid : ∀ c ∈ sanitizeChars l, validIdChar c = true :=
    fun _ hc => validIdChar_of_mem_sanitize hc
  cases heq : sanitizeChars l with
  | nil => decide
  | cons c t =>
    rw [heq] at hvalid
    have hcore : sanitizeCharsCore (c :: t) = c :: t := sanitizeCharsCore_id hvalid
    have halnum : c.isAlphanum = true := sanitizeChars_head_alnum heq
    unfold sanitizeChars
    rw [hcore]
    simp [sanitizePrefixFix, halnum]

/-- C8: the identifier sanitization function `_sanitize_id` is idempotent,
and for every valid email address the sanitized value contains only
characters of the constrained class (alphanumeric, hyphen, underscore,
forward slash, colon) and starts with an alphanumeric character. -/
theorem C8_sanitize_idempotent_email_class :
    (∀ x : String, sanitize_id (sanitize_id x) = sanitize_id x) ∧
    (∀ e : String, IsValidEmail e →
      (∀ c ∈ (sanitize_id e).data, validIdChar c = true) ∧
      ∃ c t, (sanitize_id e).data = c :: t ∧ c.isAlphanum = true) := by
  constructor
  · intro x
    exact congrArg String.mk (sanitizeChars_idem x.data)
  · intro e he
    refine ⟨fun c hc => validIdChar_of_mem_sanitize hc, ?_⟩
    obtain ⟨lp, dom, hdata, hlp, _⟩ := he
    have hne : e.data ≠ [] := by
      rw [hdata]; cases lp <;> simp
    have hsane : sanitizeChars e.data ≠ [] := sanitizeChars_ne_nil hne
    cases hsc : sanitizeChars e.data with
    | nil => exact absurd hsc hsane
    | cons c t =>
      exact ⟨c, t, by simp [sanitize_id, hsc], sanitizeChars_head_alnum hsc⟩

/-- Witness for C8 at concrete inputs: a concrete identifier for the
idempotence clause and the concrete valid email `user@example.com` for the
character-class clause. -/
theorem C8_witness :
    IsValidEmail "user@example.com" ∧
    sanitize_id (sanitize_id "a b@c.d") = sanitize_id "a b@c.d" ∧
    ((∀ c ∈ (sanitize_id "user@example.com").data, validIdChar c = true) ∧
      ∃ c t, (sanitize_id "user@example.com").data = c :: t ∧
        c.isAlphanum = true) := by
  have hv : IsValidEmail "user@example.com" :=
    ⟨"user".data, "example.com".data, by decide, by decide, by decide⟩
  exact ⟨hv, C8_sanitize_idempotent_email_class.1 _,
    C8_sanitize_idempotent_email_class.2 _ hv⟩

/-! ## Theorems about ADF conversion -/

/-- C9 counterexample: on the input `" a "` (one non-blank line carrying
surrounding whitespace) the produced paragraph holds the stripped text
`"a"`, not the line's text `" a "`, so the claim as stated fails. -/
theorem C9_counterexample :
    ¬ ((convert_text_to_adf " a ").content.length = (nonBlankLines " a ").length ∧
        (convert_text_to_adf " a ").content =
          (nonBlankLines " a ").map (fun l => AdfParagraph.mk [AdfTextNode.mk l])) := by
  decide

/-- C9 (amended): the ADF conversion yields one paragraph per non-blank
newline-delimited line of the input, each holding that line's text with
surrounding whitespace stripped; an empty or all-blank input yields exactly
one empty paragraph. -/
theorem C9_adf_conversion (text : String) :
    (convert_text_to_adf text).version = 1 ∧
    (convert_text_to_adf text).content =
      (if (nonBlankLines text).isEmpty then [AdfParagraph.mk []]
        else (nonBlankLines text).map
          (fun l => AdfParagraph.mk [AdfTextNode.mk (pyStrip l)])) ∧
    (convert_text_to_adf text).content.length =
      (if (nonBlankLines text).isEmpty then 1 else (nonBlankLines text).length) := by
  simp only [convert_text_to_adf, nonBlankLines]
  cases h : (pySplitLines text).filter (fun p => truthyStr (pyStrip p)) <;>
    simp [h]

/-! ## Messages and tool calls

The LangChain message objects the nodes inspect: each message has a role
(`AIMessage` is the assistant role), a content that is either a plain
string or a list of content blocks (dicts carrying a `text` field, or bare
strings), and for assistant messages a list of requested tool calls whose
arguments are a string-keyed dict. -/

/-- Message roles. -/
inductive Role
  | user
  | assistant
  | tool
  | system
  deriving Repr, DecidableEq

/-- One element of a structured message content list. -/
inductive ContentBlock
  | textBlock (t : String)
  | strBlock (s : String)
  deriving Repr, DecidableEq

/-- Message content: a flat string or a list of content blocks. -/
inductive MsgContent
  | ofString (s : String)
  | ofList (l : List ContentBlock)
  deriving Repr, DecidableEq

/-- A tool call requested by an assistant message:
`{"name": ..., "args": {...}}`. -/
structure ToolCall where
  name : String
  args : List (String × String)
  deriving Repr, DecidableEq

/-- A chat message. -/
structure Msg where
  role : Role
  content : MsgContent
  toolCalls : List ToolCall := []
  deriving Repr, DecidableEq

/-- Python truthiness of a message content (`if msg.content:`). -/
def contentTruthy : MsgContent → Bool
  | .ofString s => !s.isEmpty
  | .ofList l => !l.isEmpty

/-- `agent/utils.py`, `extract_text_content`: extract text from content
that might be a string or a list; a list's first text-bearing block wins;
an empty list falls back to `str(content).strip()` which is `"[]"`. -/
def extract_text_content : MsgContent → String
  | .ofString s => pyStrip s
  | .ofList (.textBlock t :: _) => pyStrip t
  | .ofList (.strBlock s :: _) => pyStrip s
  | .ofList [] => "[]"

/-! ## Workflow state and partial updates (`agent/state.py`)

`CustomerSupportState` is a mapping merged additively by LangGraph:
a node returns only the fields it changed; `messages` and `attachments`
concatenate, scalar fields overwrite.  A `WUpdate` field of `none` means
the key is absent from the returned dict; `some v` means the key is set to
`v` (which is itself optional, as the Python values may be `None`). -/

/-- The workflow state threaded through every node. -/
structure WState where
  messages : List Msg := []
  issue_no : Option String := none
  summary : Option String := none
  description : Option String := none
  attachments : List String := []
  category : Option String := none
  response : Option String := none
  assignee : Option String := none
  reporter : Option String := none
  customer_email : Option String := none
  customer_name : Option String := none
  transaction_id : Option String := none
  order_no : Option String := none
  deriving Repr, DecidableEq

/-- A partial state update returned by a node. -/
structure WUpdate where
  messages : Option (List Msg) := none
  issue_no : Option (Option String) := none
  summary : Option (Option String) := none
  description : Option (Option String) := none
  attachments : Option (List String) := none
  category : Option (Option String) := none
  response : Option (Option String) := none
  assignee : Option (Option String) := none
  reporter : Option (Option String) := none
  customer_email : Option (Option String) := none
  customer_name : Option (Option String) := none
  transaction_id : Option (Option String) := none
  order_no : Option (Option String) := none
  deriving Repr, DecidableEq

/-- Merge of one scalar field: an absent key leaves the old value. -/
def setScalar (old : Option String) : Option (Option String) → Option String
  | none => old
  | some v => v

/-- LangGraph's additive merge of a node's partial update into the state:
`messages` and `attachments` concatenate, scalar fields overwrite when the
update carries the key. -/
def applyUpdate (s : WState) (u : WUpdate) : WState where
  messages := s.messages ++ u.messages.getD []
  issue_no := setScalar s.issue_no u.issue_no
  summary := setScalar s.summary u.summary
  description := setScalar s.description u.description
  attachments := s.attachments ++ u.attachments.getD []
  category := setScalar s.category u.category
  response := setScalar s.response u.response
  assignee := setScalar s.assignee u.assignee
  reporter := setScalar s.reporter u.reporter
  customer_email := setScalar s.customer_email u.customer_email
  customer_name := setScalar s.customer_name u.customer_name
  transaction_id := setScalar s.transaction_id u.transaction_id
  order_no := setScalar s.order_no u.order_no

/-! ## The workflow graph and its routing (`agent/graph.py`) -/

/-- The graph's nodes, plus the virtual START and END vertices. -/
inductive GNode
  | start
  | conversation
  | collectInfo
  | fetchIssue
  | assignContact
  | determineCategory
  | attachmentAnalysis
  | summaryAnalysis
  | generateResponse
  | terminal
  deriving Repr, DecidableEq

/-- `route_after_conversation`: to Collect Customer Information when
`issue_no` is missing, to END otherwise. -/
def route_after_conversation (s : WState) : GNode :=
  if !truthyOpt s.issue_no then .collectInfo else .terminal

/-- `route_after_collect_info`: to Fetch Issue Details when `issue_no` is
present, to END otherwise. -/
def route_after_collect_info (s : WState) : GNode :=
  if truthyOpt s.issue_no then .fetchIssue else .terminal

/-- One step of the graph's execution: run the current node (its behaviour
abstracted by `u`, since several nodes consult external collaborators),
merge its partial update, and follow the graph's edge — conditional after
Customer Conversation and Collect Customer Information, unconditional
along the triage chain.  END is absorbing. -/
def stepGraph (u : GNode → WState → WUpdate) :
    GNode × WState → GNode × WState
  | (.start, s) => (.conversation, s)
  | (.conversation, s) =>
    let s' := applyUpdate s (u .conversation s)
    (route_after_conversation s', s')
  | (.collectInfo, s) =>
    let s' := applyUpdate s (u .collectInfo s)
    (route_after_collect_info s', s')
  | (.fetchIssue, s) => (.assignContact, applyUpdate s (u .fetchIssue s))
  | (.assignContact, s) =>
    (.determineCategory, applyUpdate s (u .assignContact s))
  | (.determineCategory, s) =>
    (.attachmentAnalysis, applyUpdate s (u .determineCategory s))
  | (.attachmentAnalysis, s) =>
    (.summaryAnalysis, applyUpdate s (u .attachmentAnalysis s))
  | (.summaryAnalysis, s) =>
    (.generateResponse, applyUpdate s (u .summaryAnalysis s))
  | (.generateResponse, s) => (.terminal, applyUpdate s (u .generateResponse s))
  | (.terminal, s) => (.terminal, s)

/-- The triage sub-pipeline: Ticket-Fetch through Response-Generation. -/
def triageNode : GNode → Bool
  | .fetchIssue => true
  | .assignContact => true
  | .determineCategory => true
  | .attachmentAnalysis => true
  | .summaryAnalysis => true
  | .generateResponse => true
  | _ => false

/-! ## Theorems about graph routing -/

lemma stepGraph_terminal_fixed (u : GNode → WState → WUpdate) (s : WState) :
    stepGraph u (GNode.terminal, s) = (GNode.terminal, s) := rfl

/-- C1: from any initial state in which `issue_no` is absent and stays
absent after the Customer-Conversation and Information-Collection steps,
the graph's step relation reaches the terminal END (in three steps and
forever after), and no triage node (Ticket-Fetch, Assignment,
Categorization, Attachment-Analysis, Summary-Analysis,
Response-Generation) is ever the active node. -/
theorem C1_no_issue_no_triage
    (u : GNode → WState → WUpdate) (s0 : WState)
    (h0 : truthyOpt s0.issue_no = false)
    (h1 : truthyOpt (applyUpdate s0 (u .conversation s0)).issue_no = false)
    (h2 : truthyOpt (applyUpdate (applyUpdate s0 (u .conversation s0))
        (u .collectInfo (applyUpdate s0 (u .conversation s0)))).issue_no
      = false) :
    (∀ k : Nat, 3 ≤ k →
      ((stepGraph u)^[k] (GNode.start, s0)).1 = GNode.terminal) ∧
    ∀ k : Nat, triageNode (((stepGraph u)^[k] (GNode.start, s0)).1) = false := by
  set s1 := applyUpdate s0 (u .conversation s0) with hs1
  set s2 := applyUpdate s1 (u .collectInfo s1) with hs2
  have hstep1 : stepGraph u (GNode.start, s0) = (GNode.conversation, s0) := rfl
  have hstep2 : stepGraph u (GNode.conversation, s0) = (GNode.collectInfo, s1) := by
    simp [stepGraph, route_after_conversation, h1, hs1]
  have hstep3 : stepGraph u (GNode.collectInfo, s1) = (GNode.terminal, s2) := by
    simp [stepGraph, route_after_collect_info, h2, hs2]
  have h3 : (stepGraph u)^[3] (GNode.start, s0) = (GNode.terminal, s2) := by
    show stepGraph u (stepGraph u (stepGraph u (GNode.start, s0)))
      = (GNode.terminal, s2)
    rw [hstep1, hstep2, hstep3]
  have hit : ∀ m : Nat, (stepGraph u)^[m + 3] (GNode.start, s0)
      = (GNode.terminal, s2) := by
    intro m
    rw [Function.iterate_add_apply, h3,
      Function.iterate_fixed (stepGraph_terminal_fixed u s2)]
  constructor
  · intro k hk
    obtain ⟨m, rfl⟩ : ∃ m, k = m + 3 := ⟨k - 3, by omega⟩
    rw [hit m]
  · intro k
    match k with
    | 0 => rfl
    | 1 =>
      rw [Function.iterate_one, hstep1]
      rfl
    | 2 =>
      show triageNode (stepGraph u (stepGraph u (GNode.start, s0))).1 = false
      rw [hstep1, hstep2]
      rfl
    | (m + 3) =>
      rw [hit m]
      rfl

/-- Witness for C1 at a concrete input: the empty initial state and nodes
that all return the empty update. -/
theorem C1_witness :
    ((stepGraph (fun _ _ => ({} : WUpdate)))^[3]
        (GNode.start, ({} : WState))).1 = GNode.terminal ∧
    triageNode (((stepGraph (fun _ _ => ({} : WUpdate)))^[5]
        (GNode.start, ({} : WState))).1) = false := by
  refine ⟨(C1_no_issue_no_triage (fun _ _ => {}) {} (by decide) ?ha ?hb).1 3
      (by omega), (C1_no_issue_no_triage (fun _ _ => {}) {} (by decide) ?ha ?hb).2 5⟩
  case ha => decide
  case hb => decide

/-! ## Extraction nodes (`agent/issue_assessment.py`) -/

/-- `state.get(field) or ""`: an absent or `None` field reads as the empty
string. -/
def orEmptyStr : Option String → String
  | none => ""
  | some v => v

/-- Oracle for `analyze_attachments_node`: whether `add_image_content` on
the first attachment succeeded, and the outcome of the vision call plus
`extract_json_from_response` — `Except.error` models an exception during
extraction, `Except.ok v` carries `json_obj.get("transactionid", "")`
(possibly empty; the source's `or None` on an empty string and the
subsequent truthiness test collapse to the emptiness test below). -/
structure AttachmentOracle where
  imageOk : Bool
  extracted : Except Unit String

/-- `analyze_attachments_node`: no-op without attachments or on image
failure; otherwise adopts the extracted transaction id only when it is
non-empty and `transaction_id` is not already set in state. -/
def analyze_attachments_node (o : AttachmentOracle) (s : WState) : WUpdate :=
  if s.attachments.isEmpty then {}
  else if !o.imageOk then {}
  else
    match o.extracted with
    | .error _ => {}
    | .ok tidStr =>
      if truthyStr tidStr && !truthyOpt s.transaction_id then
        { transaction_id := some (some tidStr) }
      else {}

/-- `analyze_summary_node`: on non-blank summary+description text, extracts
`transaction_id` and `order_no` through two single-shot model calls (each
skipped when the field is already set), and adopts each extracted value
only when non-empty and the field is still unset.  `oTid`/`oOrd` are the
two call outcomes (`Except.error` models an exception, `.ok v` carries
`json_obj.get(...)`, possibly empty). -/
def analyze_summary_node (oTid oOrd : Except Unit String) (s : WState) :
    WUpdate :=
  let combined := pyStrip (orEmptyStr s.summary ++ "\n" ++ orEmptyStr s.description)
  if !truthyStr combined then {}
  else
    let tid0 := orEmptyStr s.transaction_id
    let tid := if !truthyStr tid0 then
        (match oTid with
          | .error _ => ""
          | .ok v => v)
      else tid0
    let ord0 := orEmptyStr s.order_no
    let ord := if !truthyStr ord0 then
        (match oOrd with
          | .error _ => ""
          | .ok v => v)
      else ord0
    let updates1 : WUpdate :=
      if truthyStr tid && !truthyOpt s.transaction_id then
        { transaction_id := some (some tid) }
      else {}
    if truthyStr ord && !truthyOpt s.order_no then
      { updates1 with order_no := some (some ord) }
    else updates1

/-! ## Theorems about extraction-field immutability -/

lemma analyze_attachments_tid_none {o : AttachmentOracle} {s : WState}
    (h : truthyOpt s.transaction_id = true) :
    (analyze_attachments_node o s).transaction_id = none := by
  unfold analyze_attachments_node
  cases ho : o.extracted <;> simp only [ho] <;> split_ifs <;> simp_all

lemma analyze_attachments_ord_none {o : AttachmentOracle} {s : WState} :
    (analyze_attachments_node o s).order_no = none := by
  unfold analyze_attachments_node
  cases ho : o.extracted <;> simp only [ho] <;> split_ifs <;> rfl

lemma analyze_summary_tid_none {oTid oOrd : Except Unit String} {s : WState}
    (h : truthyOpt s.transaction_id = true) :
    (analyze_summary_node oTid oOrd s).transaction_id = none := by
  unfold analyze_summary_node
  simp only [h]
  split_ifs <;> simp_all

lemma analyze_summary_ord_none {oTid oOrd : Except Unit String} {s : WState}
    (h : truthyOpt s.order_no = true) :
    (analyze_summary_node oTid oOrd s).order_no = none := by
  unfold analyze_summary_node
  simp only [h]
  split_ifs <;> simp_all

lemma applyUpdate_tid_of_none {s : WState} {u : WUpdate}
    (h : u.transaction_id = none) :
    (applyUpdate s u).transaction_id = s.transaction_id := by
  show setScalar s.transaction_id u.transaction_id = s.transaction_id
  rw [h]
  rfl

lemma applyUpdate_ord_of_none {s : WState} {u : WUpdate}
    (h : u.order_no = none) :
    (applyUpdate s u).order_no = s.order_no := by
  show setScalar s.order_no u.order_no = s.order_no
  rw [h]
  rfl

/-- C3: once `transaction_id` (respectively `order_no`) is non-empty in
state, the Attachment-Analysis and Summary-Analysis nodes leave it
unchanged, whatever the model calls would extract from the new input. -/
theorem C3_known_ids_never_overwritten
    (s : WState) (oa : AttachmentOracle) (oTid oOrd : Except Unit String) :
    (truthyOpt s.transaction_id = true →
      (applyUpdate s (analyze_attachments_node oa s)).transaction_id
          = s.transaction_id ∧
      (applyUpdate s (analyze_summary_node oTid oOrd s)).transaction_id
          = s.transaction_id) ∧
    (truthyOpt s.order_no = true →
      (applyUpdate s (analyze_attachments_node oa s)).order_no = s.order_no ∧
      (applyUpdate s (analyze_summary_node oTid oOrd s)).order_no
          = s.order_no) := by
  refine ⟨fun h => ⟨?_, ?_⟩, fun h => ⟨?_, ?_⟩⟩
  · exact applyUpdate_tid_of_none (analyze_attachments_tid_none h)
  · exact applyUpdate_tid_of_none (analyze_summary_tid_none h)
  · exact applyUpdate_ord_of_none analyze_attachments_ord_none
  · exact applyUpdate_ord_of_none (analyze_summary_ord_none h)

/-- A concrete state with both extraction identifiers already set, used as
the witness input for C3. -/
def c3State : WState :=
  { transaction_id := some "TXN5", order_no := some "ORD1",
    attachments := ["receipt.png"], summary := some "ticket summary" }

/-- Witness for C3 at a concrete input: a state with both identifiers set,
an attachment present and oracles extracting different values; both fields
survive unchanged. -/
theorem C3_witness :
    truthyOpt c3State.transaction_id = true ∧
    truthyOpt c3State.order_no = true ∧
    (applyUpdate c3State
        (analyze_summary_node (.ok "TXN9") (.ok "ORD9") c3State)).transaction_id
      = some "TXN5" ∧
    (applyUpdate c3State
        (analyze_attachments_node ⟨true, .ok "TXN9"⟩ c3State)).order_no
      = some "ORD1" := by
  refine ⟨by decide, by decide, ?_, ?_⟩
  · rw [((C3_known_ids_never_overwritten c3State ⟨true, .ok "TXN9"⟩ (.ok "TXN9")
      (.ok "ORD9")).1 (by decide)).2]
    rfl
  · rw [((C3_known_ids_never_overwritten c3State ⟨true, .ok "TXN9"⟩ (.ok "TXN9")
      (.ok "ORD9")).2 (by decide)).1]
    rfl

/-! ## Customer conversation (`agent/customer_conversation.py`) -/

/-- The fixed fallback message substituted by
`customer_conversation_node`'s exception handler. -/
def apologyMsg : Msg :=
  { role := .assistant,
    content := .ofString "I apologize, but I encountered an error. Please try again or provide your email and issue number." }

/-- `customer_conversation_node`: a no-op when `issue_no` is absent;
otherwise surfaces only the agent loop's incremental messages, or the
fixed apology when an exception escapes the loop (`agentResult` is the
loop's outcome). -/
def customer_conversation_node (s : WState)
    (agentResult : Except Unit (List Msg)) : WUpdate :=
  if !truthyOpt s.issue_no then {}
  else
    match agentResult with
    | .error _ => { messages := some [apologyMsg] }
    | .ok resultMsgs =>
      if resultMsgs.length > s.messages.length then
        { messages := some (resultMsgs.drop s.messages.length) }
      else {}

/-! ## Information collection (`agent/customer_information.py`) -/

/-- `d.get(key)` over an association-list dict, without a default. -/
def pyDictGetOpt (d : List (String × String)) (key : String) : Option String :=
  match d.find? (fun kv => kv.1 == key) with
  | some kv => some kv.2
  | none => none

/-- The result dictionary of `_extract_info_from_tool_calls`. -/
structure ExtractedInfo where
  customer_email : Option String := none
  issue_no : Option String := none
  deriving Repr, DecidableEq

/-- Processing of one tool call by `_extract_info_from_tool_calls`: only
`record_customer_info` calls contribute, and only arguments that are
non-empty after stripping are recorded. -/
def extractFromToolCall (acc : ExtractedInfo) (tc : ToolCall) : ExtractedInfo :=
  if tc.name == "record_customer_info" then
    let e := pyStrip (pyDictGet tc.args "email" "")
    let i := pyStrip (pyDictGet tc.args "issue_no" "")
    let acc1 := if truthyStr e then { acc with customer_email := some e } else acc
    if truthyStr i then { acc1 with issue_no := some i } else acc1
  else acc

/-- Processing of one message by `_extract_info_from_tool_calls`: only
assistant (`AIMessage`) tool calls are inspected. -/
def extractFromMsg (acc : ExtractedInfo) (m : Msg) : ExtractedInfo :=
  if m.role == Role.assistant then m.toolCalls.foldl extractFromToolCall acc
  else acc

/-- `_extract_info_from_tool_calls`. -/
def extract_info_from_tool_calls (messages : List Msg) : ExtractedInfo :=
  messages.foldl extractFromMsg {}

/-- The fixed fallback message substituted by
`collect_customer_information_node`'s exception handler. -/
def requestInfoMsg : Msg :=
  { role := .assistant,
    content := .ofString "I need your email address and support issue/ticket number. Please provide these details." }

/-- The body of `collect_customer_information_node`'s try-block after a
successful agent invocation: adopt recorded email/issue values, look up
the customer name when both are now known, and surface the loop's
incremental messages. -/
def collectUpdatesFromMsgs (s : WState)
    (dbCustomer : String → List (String × String))
    (resultMsgs : List Msg) : WUpdate :=
  let extracted := extract_info_from_tool_calls resultMsgs
  let u1 : WUpdate :=
    if truthyOpt extracted.customer_email then
      { customer_email := some extracted.customer_email }
    else {}
  let u2 : WUpdate :=
    if truthyOpt extracted.issue_no then
      { u1 with issue_no := some extracted.issue_no }
    else u1
  let final_email :=
    if truthyOpt u2.customer_email.join then u2.customer_email.join
    else s.customer_email
  let final_issue :=
    if truthyOpt u2.issue_no.join then u2.issue_no.join else s.issue_no
  let u3 :=
    if truthyOpt final_email && truthyOpt final_issue then
      let customer := dbCustomer (orEmptyStr final_email)
      if !customer.isEmpty then
        { u2 with customer_name := some (pyDictGetOpt customer "name") }
      else u2
    else u2
  if resultMsgs.length > s.messages.length then
    { u3 with messages := some (resultMsgs.drop s.messages.length) }
  else u3

/-- `collect_customer_information_node`: short-circuits to a pure customer
name lookup when email and issue are both known; otherwise runs the agent
(`agentResult` is the loop's outcome, `Except.error` an exception escaping
it) and merges its results, or substitutes the fixed request-for-info
message on an exception.  `dbCustomer` is the
`DatabaseService.find_customer` lookup, returning a flat mapping (empty
when not found). -/
def collect_customer_information_node
    (s : WState) (dbCustomer : String → List (String × String))
    (agentResult : Except Unit (List Msg)) : WUpdate :=
  if truthyOpt s.customer_email && truthyOpt s.issue_no then
    { customer_name :=
        some (pyDictGetOpt (dbCustomer (orEmptyStr s.customer_email)) "name") }
  else
    match agentResult with
    | .error _ => { messages := some [requestInfoMsg] }
    | .ok resultMsgs => collectUpdatesFromMsgs s dbCustomer resultMsgs

/-! ## Theorems about information collection -/

lemma extractFromToolCall_email (acc : ExtractedInfo) (tc : ToolCall) :
    (extractFromToolCall acc tc).customer_email = acc.customer_email ∨
    (tc.name = "record_customer_info" ∧
      (extractFromToolCall acc tc).customer_email
        = some (pyStrip (pyDictGet tc.args "email" ""))) := by
  unfold extractFromToolCall
  by_cases hn : (tc.name == "record_customer_info") = true <;>
    by_cases he : truthyStr (pyStrip (pyDictGet tc.args "email" "")) = true <;>
      by_cases hi : truthyStr (pyStrip (pyDictGet tc.args "issue_no" "")) = true <;>
        simp_all

lemma extractFromToolCall_issue (acc : ExtractedInfo) (tc : ToolCall) :
    (extractFromToolCall acc tc).issue_no = acc.issue_no ∨
    (tc.name = "record_customer_info" ∧
      (extractFromToolCall acc tc).issue_no
        = some (pyStrip (pyDictGet tc.args "issue_no" ""))) := by
  unfold extractFromToolCall
  by_cases hn : (tc.name == "record_customer_info") = true <;>
    by_cases he : truthyStr (pyStrip (pyDictGet tc.args "email" "")) = true <;>
      by_cases hi : truthyStr (pyStrip (pyDictGet tc.args "issue_no" "")) = true <;>
        simp_all

lemma toolCalls_email_provenance :
    ∀ (tcs : List ToolCall) (acc : ExtractedInfo) (e : String),
      (tcs.foldl extractFromToolCall acc).customer_email = some e →
      acc.customer_email = some e ∨
      ∃ tc ∈ tcs, tc.name = "record_customer_info" ∧
        pyStrip (pyDictGet tc.args "email" "") = e
  | [], _, _, h => .inl h
  | tc :: rest, acc, e, h => by
    rcases toolCalls_email_provenance rest _ e h with h' | ⟨tc', htc', hn, hv⟩
    · rcases extractFromToolCall_email acc tc with heq | ⟨hn, heq⟩
      · exact .inl (heq ▸ h')
      · right
        refine ⟨tc, List.mem_cons_self tc rest, hn, ?_⟩
        rw [heq] at h'
        exact (Option.some.injEq _ _ ▸ h')
    · exact .inr ⟨tc', List.mem_cons.mpr (.inr htc'), hn, hv⟩

lemma toolCalls_issue_provenance :
    ∀ (tcs : List ToolCall) (acc : ExtractedInfo) (i : String),
      (tcs.foldl extractFromToolCall acc).issue_no = some i →
      acc.issue_no = some i ∨
      ∃ tc ∈ tcs, tc.name = "record_customer_info" ∧
        pyStrip (pyDictGet tc.args "issue_no" "") = i
  | [], _, _, h => .inl h
  | tc :: rest, acc, i, h => by
    rcases toolCalls_issue_provenance rest _ i h with h' | ⟨tc', htc', hn, hv⟩
    · rcases extractFromToolCall_issue acc tc with heq | ⟨hn, heq⟩
      · exact .inl (heq ▸ h')
      · right
        refine ⟨tc, List.mem_cons_self tc rest, hn, ?_⟩
        rw [heq] at h'
        exact (Option.some.injEq _ _ ▸ h')
    · exact .inr ⟨tc', List.mem_cons.mpr (.inr htc'), hn, hv⟩

lemma msgs_email_provenance :
    ∀ (msgs : List Msg) (acc : ExtractedInfo) (e : String),
      (msgs.foldl extractFromMsg acc).customer_email = some e →
      acc.customer_email = some e ∨
      ∃ m ∈ msgs, m.role = Role.assistant ∧ ∃ tc ∈ m.toolCalls,
        tc.name = "record_customer_info" ∧
        pyStrip (pyDictGet tc.args "email" "") = e
  | [], _, _, h => .inl h
  | m :: rest, acc, e, h => by
    rcases msgs_email_provenance rest _ e h with h' | ⟨m', hm', hr, hex⟩
    · unfold extractFromMsg at h'
      by_cases hrole : m.role == Role.assistant
      · rw [if_pos hrole] at h'
        rcases toolCalls_email_provenance _ _ _ h' with h'' | ⟨tc, htc, hn, hv⟩
        · exact .inl h''
        · exact .inr ⟨m, List.mem_cons_self m rest, by simpa using hrole,
            tc, htc, hn, hv⟩
      · rw [if_neg hrole] at h'
        exact .inl h'
    · exact .inr ⟨m', List.mem_cons.mpr (.inr hm'), hr, hex⟩

lemma msgs_issue_provenance :
    ∀ (msgs : List Msg) (acc : ExtractedInfo) (i : String),
      (msgs.foldl extractFromMsg acc).issue_no = some i →
      acc.issue_no = some i ∨
      ∃ m ∈ msgs, m.role = Role.assistant ∧ ∃ tc ∈ m.toolCalls,
        tc.name = "record_customer_info" ∧
        pyStrip (pyDictGet tc.args "issue_no" "") = i
  | [], _, _, h => .inl h
  | m :: rest, acc, i, h => by
    rcases msgs_issue_provenance rest _ i h with h' | ⟨m', hm', hr, hex⟩
    · unfold extractFromMsg at h'
      by_cases hrole : m.role == Role.assistant
      · rw [if_pos hrole] at h'
        rcases toolCalls_issue_provenance _ _ _ h' with h'' | ⟨tc, htc, hn, hv⟩
        · exact .inl h''
        · exact .inr ⟨m, List.mem_cons_self m rest, by simpa using hrole,
            tc, htc, hn, hv⟩
      · rw [if_neg hrole] at h'
        exact .inl h'
    · exact .inr ⟨m', List.mem_cons.mpr (.inr hm'), hr, hex⟩

lemma collect_update_email (s : WState)
    (db : String → List (String × String)) (msgs : List Msg) (e : String)
    (he : (collect_customer_information_node s db (.ok msgs)).customer_email
      = some (some e)) :
    (extract_info_from_tool_calls msgs).customer_email = some e := by
  unfold collect_customer_information_node at he
  split_ifs at he with hreq
  unfold collectUpdatesFromMsgs at he
  dsimp only at he
  split_ifs at he <;> simp_all

lemma collect_update_issue (s : WState)
    (db : String → List (String × String)) (msgs : List Msg) (i : String)
    (hi : (collect_customer_information_node s db (.ok msgs)).issue_no
      = some (some i)) :
    (extract_info_from_tool_calls msgs).issue_no = some i := by
  unfold collect_customer_information_node at hi
  split_ifs at hi with hreq
  unfold collectUpdatesFromMsgs at hi
  dsimp only at hi
  split_ifs at hi <;> simp_all

/-- The claim's "validation tool sequence was actually exercised for the
pair `(e, i)` among the current turn's tool calls": some assistant message
requested `find_customer` for that email, and some assistant message
requested the tracker field tool for the reporter of that issue.  (This is
only the tool-call part of the claimed sequence; the claim additionally
demands a successful lookup and a reporter match, so it is a necessary
condition of the claimed validation.) -/
def validationExercised (msgs : List Msg) (e i : String) : Prop :=
  (∃ m ∈ msgs, m.role = Role.assistant ∧ ∃ tc ∈ m.toolCalls,
    tc.name = "find_customer" ∧ pyDictGet tc.args "email" "" = e) ∧
  (∃ m ∈ msgs, m.role = Role.assistant ∧ ∃ tc ∈ m.toolCalls,
    tc.name = "get_jira_field_value" ∧ pyDictGet tc.args "issue_key" "" = i ∧
      pyDictGet tc.args "field_name" "" = "reporter")

/-- A concrete agent turn whose only tool call is a
`record_customer_info` invocation: no `find_customer` lookup and no
reporter check was requested anywhere in the turn. -/
def c2Msgs : List Msg :=
  [{ role := .assistant, content := .ofString "Recording your details.",
     toolCalls := [⟨"record_customer_info",
       [("email", "cust@example.com"), ("issue_no", "AS-7")]⟩] }]

/-- C2 counterexample: from an empty state, the Information-Collection
node adopts the email/issue pair recorded by a bare `record_customer_info`
tool call even though the validation tool sequence (`find_customer` and
the reporter lookup) was never exercised in the turn — refuting the claim
that unvalidated pairs are never adopted. -/
theorem C2_counterexample :
    (collect_customer_information_node {} (fun _ => []) (.ok c2Msgs)).customer_email
        = some (some "cust@example.com") ∧
    (collect_customer_information_node {} (fun _ => []) (.ok c2Msgs)).issue_no
        = some (some "AS-7") ∧
    ¬ validationExercised c2Msgs "cust@example.com" "AS-7" := by
  refine ⟨by decide, by decide, ?_⟩
  intro hv
  rcases hv.1 with ⟨m, hm, _, tc, htc, hn, _⟩
  rcases List.mem_singleton.mp hm with rfl
  rcases List.mem_singleton.mp htc with rfl
  exact absurd hn (by decide)

/-- C2 (amended): the Information-Collection node adopts an email
(respectively issue number) into durable state only if that exact value
(non-empty after stripping) was passed as the corresponding argument of a
`record_customer_info` tool call among the current turn's assistant
messages; free text never feeds state.  The `find_customer`/reporter-match
validation demanded of the model by the prompt is not re-checked by the
node. -/
theorem C2_record_tool_is_only_channel
    (s : WState) (db : String → List (String × String)) (msgs : List Msg) :
    (∀ e, (collect_customer_information_node s db (.ok msgs)).customer_email
        = some (some e) →
      ∃ m ∈ msgs, m.role = Role.assistant ∧ ∃ tc ∈ m.toolCalls,
        tc.name = "record_customer_info" ∧
        pyStrip (pyDictGet tc.args "email" "") = e) ∧
    (∀ i, (collect_customer_information_node s db (.ok msgs)).issue_no
        = some (some i) →
      ∃ m ∈ msgs, m.role = Role.assistant ∧ ∃ tc ∈ m.toolCalls,
        tc.name = "record_customer_info" ∧
        pyStrip (pyDictGet tc.args "issue_no" "") = i) := by
  constructor
  · intro e he
    have hx := collect_update_email s db msgs e he
    rcases msgs_email_provenance msgs {} e hx with h | h
    · exact absurd h (by simp [ExtractedInfo.customer_email])
    · exact h
  · intro i hi
    have hx := collect_update_issue s db msgs i hi
    rcases msgs_issue_provenance msgs {} i hx with h | h
    · exact absurd h (by simp [ExtractedInfo.issue_no])
    · exact h

/-- Witness for C2 (amended) at a concrete input: the recorded pair of
`c2Msgs` is traced back to its `record_customer_info` tool call. -/
theorem C2_witness :
    (∃ m ∈ c2Msgs, m.role = Role.assistant ∧ ∃ tc ∈ m.toolCalls,
      tc.name = "record_customer_info" ∧
      pyStrip (pyDictGet tc.args "email" "") = "cust@example.com") ∧
    ∃ m ∈ c2Msgs, m.role = Role.assistant ∧ ∃ tc ∈ m.toolCalls,
      tc.name = "record_customer_info" ∧
      pyStrip (pyDictGet tc.args "issue_no" "") = "AS-7" :=
  ⟨(C2_record_tool_is_only_channel {} (fun _ => []) c2Msgs).1
      "cust@example.com" (by decide),
   (C2_record_tool_is_only_channel {} (fun _ => []) c2Msgs).2
      "AS-7" (by decide)⟩

/-! ## Theorems about agent-loop exception recovery -/

/-- C7: when an exception escapes the agent loop inside
Customer-Conversation (which only runs its loop when `issue_no` is
present) or Information-Collection (which only runs its loop when email
and issue are not both already known), the node returns an update whose
only content is the fixed fallback assistant message appended to
`messages`; every other field is absent from the update, so the merged
state is otherwise unchanged and the workflow continues. -/
theorem C7_loop_exception_fallback
    (s : WState) (db : String → List (String × String)) :
    (truthyOpt s.issue_no = true →
      customer_conversation_node s (.error ())
        = { messages := some [apologyMsg] }) ∧
    ((truthyOpt s.customer_email && truthyOpt s.issue_no) = false →
      collect_customer_information_node s db (.error ())
        = { messages := some [requestInfoMsg] }) := by
  constructor
  · intro h
    simp [customer_conversation_node, h]
  · intro h
    simp [collect_customer_information_node, h]

/-- Witness for C7 at a concrete input: a state with an issue number but
no customer email. -/
theorem C7_witness :
    customer_conversation_node { issue_no := some "AS-1" } (.error ())
      = { messages := some [apologyMsg] } ∧
    collect_customer_information_node { issue_no := some "AS-1" }
        (fun _ => []) (.error ())
      = { messages := some [requestInfoMsg] } :=
  ⟨(C7_loop_exception_fallback { issue_no := some "AS-1" } (fun _ => [])).1
      (by decide),
   (C7_loop_exception_fallback { issue_no := some "AS-1" } (fun _ => [])).2
      (by decide)⟩

/-! ## Response generation (`agent/response_generation.py`) -/

/-- `state.get(field, "N/A")` for the prompt context fields. -/
def orNA : Option String → String
  | none => "N/A"
  | some v => v

/-- The state-derived data fed into the Response-Generation system prompt
(`get_response_generation_system_prompt`): everything the node reads from
state except `issue_no` — in particular, never the conversation history. -/
structure PromptData where
  category : String
  summary : String
  description : String
  transaction_id : Option String
  order_no : Option String
  deriving Repr, DecidableEq

/-- The prompt data `update_response_node` assembles from state. -/
def responsePromptData (s : WState) : PromptData :=
  { category := orNA s.category, summary := orNA s.summary,
    description := orNA s.description,
    transaction_id := s.transaction_id, order_no := s.order_no }

/-- The fixed trigger message Response-Generation passes to its agent
instead of the conversation history. -/
def triggerMsg : Msg :=
  { role := .assistant,
    content := .ofString "I have completed the analysis and will now generate a comprehensive response for your issue." }

/-- The error message of the explicit raise in `update_response_node`. -/
def noResponseError : String :=
  "Agent failed to generate a response. No valid response found in agent messages."

/-- The reverse scan of `update_response_node` over the agent's messages:
take the first message that is an `AIMessage` with truthy content whose
extracted text is non-empty and longer than 100 characters. -/
def findResponse : List Msg → String
  | [] => ""
  | m :: rest =>
    if m.role == Role.assistant && contentTruthy m.content then
      let c := extract_text_content m.content
      if !c.isEmpty && decide (100 < c.length) then c
      else findResponse rest
    else findResponse rest

/-- The qualification predicate of the reverse scan, as one boolean. -/
def qualMsg (m : Msg) : Bool :=
  (m.role == Role.assistant && contentTruthy m.content) &&
    (!(extract_text_content m.content).isEmpty &&
      decide (100 < (extract_text_content m.content).length))

/-- `update_response_node`: an empty update without invoking the agent
when `issue_no` is absent; otherwise the agent (abstracted by `agent`, a
function of the prompt data and of the input messages) runs on the single
fixed trigger message, the resulting messages are scanned in reverse for
the first long assistant answer, a missing answer raises, and on success
the node returns the response and the agent's incremental messages (the
trigger excluded).  The best-effort Jira write-back is a logged side
effect with no state impact. -/
def update_response_node
    (agent : PromptData → List Msg → List Msg) (s : WState) :
    Except String WUpdate :=
  if !truthyOpt s.issue_no then .ok {}
  else
    let inputMessages := [triggerMsg]
    let agentMessages := agent (responsePromptData s) inputMessages
    let response := findResponse agentMessages.reverse
    let updates : WUpdate :=
      if agentMessages.length > inputMessages.length then
        { messages := some (agentMessages.drop inputMessages.length) }
      else {}
    if !truthyStr response then .error noResponseError
    else .ok { updates with response := some (some response) }

/-! ## Theorems about response generation -/

lemma findResponse_eq_find (l : List Msg) :
    findResponse l = (match l.find? qualMsg with
      | some m => extract_text_content m.content
      | none => "") := by
  induction l with
  | nil => rfl
  | cons m rest ih =>
    by_cases h1 : (m.role == Role.assistant && contentTruthy m.content) = true <;>
      by_cases h2 : (!(extract_text_content m.content).isEmpty &&
          decide (100 < (extract_text_content m.content).length)) = true <;>
        simp [findResponse, qualMsg, h1, h2, ih, List.find?_cons]

lemma findResponse_mem {l : List Msg} {r : String}
    (h : findResponse l = r) (hne : r ≠ "") :
    ∃ m ∈ l, m.role = Role.assistant ∧ extract_text_content m.content = r := by
  rw [findResponse_eq_find] at h
  cases hf : l.find? qualMsg with
  | none => rw [hf] at h; exact absurd h.symm hne
  | some m =>
    rw [hf] at h
    have hm : m ∈ l := List.mem_of_find?_eq_some hf
    have hq : qualMsg m = true := List.find?_some hf
    unfold qualMsg at hq
    simp only [Bool.and_eq_true, beq_iff_eq] at hq
    exact ⟨m, hm, hq.1.1, h⟩

/-- C5: when `issue_no` is absent, Response-Generation returns an empty
update for every agent behaviour (the agent is never consulted); when
present, the canonical response is the extracted text of the first
qualifying assistant message of the reversed agent output (content truthy,
extracted text longer than 100 characters), the node raises the explicit
error when no message qualifies, and otherwise returns an update carrying
that response. -/
theorem C5_response_scan_and_error
    (s : WState) (agent : PromptData → List Msg → List Msg) :
    (truthyOpt s.issue_no = false → update_response_node agent s = .ok {}) ∧
    (truthyOpt s.issue_no = true →
      ((agent (responsePromptData s) [triggerMsg]).reverse.find? qualMsg = none →
        update_response_node agent s = .error noResponseError) ∧
      (∀ m, (agent (responsePromptData s) [triggerMsg]).reverse.find? qualMsg
          = some m →
        update_response_node agent s = .ok
          { messages :=
              if (agent (responsePromptData s) [triggerMsg]).length > 1 then
                some ((agent (responsePromptData s) [triggerMsg]).drop 1)
              else none,
            response := some (some (extract_text_content m.content)) })) := by
  constructor
  · intro h
    simp [update_response_node, h]
  · intro h
    constructor
    · intro hf
      have hr : findResponse
          (agent (responsePromptData s) [triggerMsg]).reverse = "" := by
        rw [findResponse_eq_find, hf]
      simp [update_response_node, h, hr, truthyStr]
      decide
    · intro m hf
      have hq : qualMsg m = true := List.find?_some hf
      have hne : (extract_text_content m.content).isEmpty = false := by
        unfold qualMsg at hq
        simp only [Bool.and_eq_true] at hq
        simpa using hq.2.1
      have hr : findResponse
          (agent (responsePromptData s) [triggerMsg]).reverse
          = extract_text_content m.content := by
        rw [findResponse_eq_find, hf]
      simp only [update_response_node, h, Bool.not_true, Bool.false_eq_true,
        if_false, hr]
      simp [truthyStr, hne]
      split_ifs <;> simp_all

/-- A long, qualifying assistant answer used as a concrete agent output. -/
def c5AnswerText : String :=
  "Thank you for your patience. Your order has been received and processed, the payment completed successfully, and the refund you asked about is currently in progress with your bank."

/-- The message carrying `c5AnswerText`. -/
def c5Answer : Msg :=
  { role := .assistant, content := .ofString c5AnswerText }

/-- A concrete agent behaviour returning the input followed by one long
answer. -/
def c5Agent : PromptData → List Msg → List Msg :=
  fun _ input => input ++ [c5Answer]

/-- A concrete state with an issue number. -/
def c5State : WState := { issue_no := some "AS-1" }

/-- Witness for C5 at a concrete input: with an issue number present and
an agent producing one long assistant answer, the node selects it. -/
theorem C5_witness :
    update_response_node c5Agent c5State = .ok
      { messages :=
          if (c5Agent (responsePromptData c5State) [triggerMsg]).length > 1 then
            some ((c5Agent (responsePromptData c5State) [triggerMsg]).drop 1)
          else none,
        response := some (some (extract_text_content c5Answer.content)) } :=
  ((C5_response_scan_and_error c5State c5Agent).2 (by decide)).2 c5Answer
    (by decide)

/-- C10: Response-Generation is independent of the conversation history —
two states that agree on every field except `messages` produce the same
result under the same agent behaviour, because the node passes only the
fixed trigger message and state-derived prompt data to the agent — and
when the agent output starts with the trigger, the messages the node
returns are exactly the output minus that trigger. -/
theorem C10_history_independent
    (agent : PromptData → List Msg → List Msg) (s1 s2 : WState)
    (h : ({ s1 with messages := [] } : WState) = { s2 with messages := [] }) :
    update_response_node agent s1 = update_response_node agent s2 ∧
    (∀ (rest : List Msg) (u : WUpdate),
      truthyOpt s1.issue_no = true →
      agent (responsePromptData s1) [triggerMsg] = triggerMsg :: rest →
      update_response_node agent s1 = .ok u →
      u.messages = if rest.isEmpty then none else some rest) := by
  injection h with hmsg hio hsum hdesc hatt hcat hrsp hass hrep hem hnm htid hono
  have hpd : responsePromptData s1 = responsePromptData s2 := by
    unfold responsePromptData
    rw [hcat, hsum, hdesc, htid, hono]
  constructor
  · unfold update_response_node
    rw [hio, hpd]
  · intro rest u hiss hagent hok
    by_cases hr0 : (findResponse (triggerMsg :: rest).reverse).isEmpty = true
    · simp only [List.reverse_cons] at hr0
      have hnode : update_response_node agent s1 = .error noResponseError := by
        simp [update_response_node, hiss, hagent, hr0, truthyStr]
      rw [hnode] at hok
      exact absurd hok (by simp)
    · simp only [List.reverse_cons, Bool.not_eq_true] at hr0
      cases rest with
      | nil =>
        simp only [List.reverse_nil, List.nil_append] at hr0
        have hnode : update_response_node agent s1 = .ok
            { response :=
                some (some (findResponse ([triggerMsg] : List Msg).reverse)) } := by
          simp [update_response_node, hiss, hagent, truthyStr, hr0]
        rw [hnode] at hok
        rcases Except.ok.inj hok with rfl
        simp
      | cons a t =>
        simp only [List.reverse_cons, List.append_assoc,
          List.singleton_append] at hr0
        have hnode : update_response_node agent s1 = .ok
            { messages := some (a :: t),
              response :=
                some (some (findResponse (triggerMsg :: a :: t).reverse)) } := by
          simp [update_response_node, hiss, hagent, truthyStr, hr0]
        rw [hnode] at hok
        rcases Except.ok.inj hok with rfl
        simp

/-- A user message present only in the second witness state. -/
def c10UserMsg : Msg :=
  { role := .user, content := .ofString "Where is my order?" }

/-- Witness state without history. -/
def c10State1 : WState := { issue_no := some "AS-1" }

/-- Witness state identical to `c10State1` except for its history. -/
def c10State2 : WState :=
  { issue_no := some "AS-1", messages := [c10UserMsg] }

/-- Witness for C10 at concrete inputs: two states differing only in
`messages` yield the same node result, and the trigger is excluded from
the returned messages. -/
theorem C10_witness :
    update_response_node c5Agent c10State1
      = update_response_node c5Agent c10State2 ∧
    ({ messages := some [c5Answer],
       response := some (some (extract_text_content c5Answer.content)) }
        : WUpdate).messages
      = if ([c5Answer] : List Msg).isEmpty then none else some [c5Answer] :=
  ⟨(C10_history_independent c5Agent c10State1 c10State2 (by decide)).1,
   (C10_history_independent c5Agent c10State1 c10State2 (by decide)).2
     [c5Answer]
     { messages := some [c5Answer],
       response := some (some (extract_text_content c5Answer.content)) }
     (by decide) (by decide) (by rfl)⟩

/-! ## Theorems about identifier disclosure in the response -/

/-- `lit` occurs as a contiguous substring of `s`. -/
def containsSubstr (s lit : String) : Prop :=
  lit.data <:+: s.data

instance (s lit : String) : Decidable (containsSubstr s lit) :=
  List.decidableInfix lit.data s.data

/-- A long assistant answer mentioning both identifiers of `c4State`. -/
def c4AnswerText : String :=
  "Your order ORD1 has been received and processed successfully. The payment transaction TXN5 completed on the original method, and the refund request for order ORD1 is currently in progress."

/-- The message carrying `c4AnswerText`. -/
def c4Answer : Msg :=
  { role := .assistant, content := .ofString c4AnswerText }

/-- A concrete agent behaviour emitting `c4Answer`. -/
def c4Agent : PromptData → List Msg → List Msg :=
  fun _ input => input ++ [c4Answer]

/-- A concrete state with both identifiers known. -/
def c4State : WState :=
  { issue_no := some "AS-1", transaction_id := some "TXN5",
    order_no := some "ORD1" }

/-- C4 counterexample: a model answer that mentions both the
`transaction_id` and the `order_no` literal of state is selected and
adopted unmodified, so the claimed at-most-one-identifier invariant fails
on this run — the node performs no identifier check. -/
theorem C4_counterexample :
    c4State.transaction_id = some "TXN5" ∧ c4State.order_no = some "ORD1" ∧
    update_response_node c4Agent c4State = .ok
      { messages := some [c4Answer],
        response := some (some c4AnswerText) } ∧
    containsSubstr c4AnswerText "TXN5" ∧ containsSubstr c4AnswerText "ORD1" := by
  exact ⟨rfl, rfl, by rfl, by decide, by decide⟩

/-- C4 (amended): the response Response-Generation adopts is exactly the
extracted text of one of the agent's assistant messages, unmodified — the
node applies no identifier filtering, so the at-most-one-of
`transaction_id`/`order_no` discipline (and the non-disclosure of refund
or customer ids) rests solely on the system-prompt instruction to the
model and can be violated by a model that emits both. -/
theorem C4_response_adopted_verbatim
    (s : WState) (agent : PromptData → List Msg → List Msg)
    (u : WUpdate) (r : String)
    (hok : update_response_node agent s = .ok u)
    (hr : u.response = some (some r)) :
    ∃ m ∈ agent (responsePromptData s) [triggerMsg],
      m.role = Role.assistant ∧ extract_text_content m.content = r := by
  by_cases h : truthyOpt s.issue_no = true
  · by_cases hr0 : (findResponse
        (agent (responsePromptData s) [triggerMsg]).reverse).isEmpty = true
    · have hnode : update_response_node agent s = .error noResponseError := by
        simp [update_response_node, h, hr0, truthyStr]
      rw [hnode] at hok
      exact absurd hok (by simp)
    · simp only [Bool.not_eq_true] at hr0
      have hr1 : findResponse
          (agent (responsePromptData s) [triggerMsg]).reverse ≠ "" := by
        intro he
        rw [he] at hr0
        exact absurd hr0 (by decide)
      by_cases hlen : (agent (responsePromptData s) [triggerMsg]).length > 1
      · have hnode : update_response_node agent s = .ok
            { messages := some ((agent (responsePromptData s) [triggerMsg]).drop 1),
              response := some (some (findResponse
                (agent (responsePromptData s) [triggerMsg]).reverse)) } := by
          simp [update_response_node, h, truthyStr, hr0, hlen]
        rw [hnode] at hok
        rcases Except.ok.inj hok with rfl
        rcases Option.some.inj (Option.some.inj hr) with rfl
        rcases findResponse_mem rfl hr1 with ⟨m, hm, hrole, hext⟩
        exact ⟨m, List.mem_reverse.mp hm, hrole, hext⟩
      · have hnode : update_response_node agent s = .ok
            { response := some (some (findResponse
                (agent (responsePromptData s) [triggerMsg]).reverse)) } := by
          simp [update_response_node, h, truthyStr, hr0, hlen]
        rw [hnode] at hok
        rcases Except.ok.inj hok with rfl
        rcases Option.some.inj (Option.some.inj hr) with rfl
        rcases findResponse_mem rfl hr1 with ⟨m, hm, hrole, hext⟩
        exact ⟨m, List.mem_reverse.mp hm, hrole, hext⟩
  · simp only [Bool.not_eq_true] at h
    have hnode : update_response_node agent s = .ok {} := by
      simp [update_response_node, h]
    rw [hnode] at hok
    rcases Except.ok.inj hok with rfl
    simp at hr

/-- Witness for C4 (amended) at concrete inputs: the adopted response of
the counterexample run is traced back to the agent's answer message. -/
theorem C4_witness :
    ∃ m ∈ c4Agent (responsePromptData c4State) [triggerMsg],
      m.role = Role.assistant ∧ extract_text_content m.content = c4AnswerText :=
  C4_response_adopted_verbatim c4State c4Agent
    { messages := some [c4Answer], response := some (some c4AnswerText) }
    c4AnswerText (by rfl) (by rfl)

/-! ## Tool registry (`tools/database.py`, `tools/jira.py`)

The MCP backend and the Jira client are external collaborators: the
backend oracle abstracts `MCPClientService.call_tool` as returning a flat
mapping or raising, `serviceInit` abstracts `_get_jira_service()` and
`fieldValue` the `JiraService.get_field_value` call.  Raising is modelled
by `Except.error`. -/

/-- `b = .ok _` as a boolean: the call returned instead of raising. -/
def exceptOk {ε α : Type} : Except ε α → Bool
  | .ok _ => true
  | .error _ => false

/-- The module-level state of `tools/database.py`: `_current_config` and
`_mcp_service` (both `None` until initialization; `Unit` stands for the
live handles, whose behaviour is the backend oracle). -/
structure MCPEnv where
  currentConfig : Option Unit
  service : Option Unit
  deriving Repr, DecidableEq

/-- `_get_mcp_service`: raises when the tools were never initialized;
lazily re-initializes when the service handle is missing (`initResult` is
that re-initialization's outcome, which itself may raise). -/
def getMcpService (env : MCPEnv) (initResult : Except String Unit) :
    Except String Unit :=
  match env.currentConfig with
  | none => .error "Database tools not initialized. Call initialize_customer_validation_tools() first."
  | some _ =>
    match env.service with
    | some _ => .ok ()
    | none => initResult

/-- `_MCP_TOOL_NAME_MAPPING`. -/
def mcpToolNameMapping : List (String × String) :=
  [("find_customer", "order-management-api___find_customer_api_customer_get"),
   ("find_order", "order-management-api___find_order_api_order_get"),
   ("find_transaction", "order-management-api___find_transaction_api_transaction_get"),
   ("get_transaction_for_order", "order-management-api___get_transaction_for_order_api_transaction_order__order_no__get"),
   ("get_refund_for_order", "order-management-api___get_refund_for_order_api_refund_order__order_no__get")]

/-- `_get_mcp_tool_name`: raises `ValueError` for an unmapped name. -/
def getMcpToolName (localName : String) : Except String String :=
  match mcpToolNameMapping.find? (fun kv => kv.1 == localName) with
  | some kv => .ok kv.2
  | none => .error ("No mapping found for tool " ++ localName)

/-- `_call_mcp_tool`: obtain the service (may raise), map the tool name
(may raise), then call the backend; only an exception raised by the
backend call itself is converted into an `error`-keyed mapping. -/
def call_mcp_tool (env : MCPEnv) (initResult : Except String Unit)
    (backend : String → List (String × String) →
      Except String (List (String × String)))
    (toolName : String) (kwargs : List (String × String)) :
    Except String (List (String × String)) :=
  match getMcpService env initResult with
  | .error e => .error e
  | .ok _ =>
    match getMcpToolName toolName with
    | .error e => .error e
    | .ok mcpName =>
      match backend mcpName kwargs with
      | .error e => .ok [("error", "Could not call " ++ toolName ++ ": " ++ e)]
      | .ok d => .ok d

/-- `find_customer` (database tool): empty mapping when both keys are
missing, otherwise an MCP lookup. -/
def find_customer (env : MCPEnv) (initResult : Except String Unit)
    (backend : String → List (String × String) →
      Except String (List (String × String)))
    (email customer_id : String) :
    Except String (List (String × String)) :=
  if !truthyStr email && !truthyStr customer_id then .ok []
  else call_mcp_tool env initResult backend "find_customer"
    [("email", email), ("customer_id", customer_id)]

/-- `find_order` (database tool). -/
def find_order (env : MCPEnv) (initResult : Except String Unit)
    (backend : String → List (String × String) →
      Except String (List (String × String)))
    (order_no : String) : Except String (List (String × String)) :=
  if !truthyStr order_no then .ok []
  else call_mcp_tool env initResult backend "find_order" [("order_no", order_no)]

/-- `find_transaction` (database tool). -/
def find_transaction (env : MCPEnv) (initResult : Except String Unit)
    (backend : String → List (String × String) →
      Except String (List (String × String)))
    (transaction_id : String) : Except String (List (String × String)) :=
  if !truthyStr transaction_id then .ok []
  else call_mcp_tool env initResult backend "find_transaction"
    [("transaction_id", transaction_id)]

/-- `get_transaction_for_order` (database tool). -/
def get_transaction_for_order (env : MCPEnv) (initResult : Except String Unit)
    (backend : String → List (String × String) →
      Except String (List (String × String)))
    (order_no : String) : Except String (List (String × String)) :=
  if !truthyStr order_no then .ok []
  else call_mcp_tool env initResult backend "get_transaction_for_order"
    [("order_no", order_no)]

/-- `get_refund_for_order` (database tool). -/
def get_refund_for_order (env : MCPEnv) (initResult : Except String Unit)
    (backend : String → List (String × String) →
      Except String (List (String × String)))
    (order_no : String) : Except String (List (String × String)) :=
  if !truthyStr order_no then .ok []
  else call_mcp_tool env initResult backend "get_refund_for_order"
    [("order_no", order_no)]

/-- A Jira field value: a user-reference object carrying an email address
(possibly null), or a plain value. -/
inductive JiraFieldValue
  | userRef (email : Option String)
  | plain (v : String)
  deriving Repr, DecidableEq

/-- A value of the mapping returned by `get_jira_field_value`. -/
inductive JVal
  | str (s : String)
  | null
  | obj (fv : JiraFieldValue)
  deriving Repr, DecidableEq

/-- `get_jira_field_value` (Jira tool): empty mapping on missing arguments
or a `None` field value; an `error`-keyed mapping when anything inside its
handler raises (service initialization included); the `reporter` special
case extracts a plain email from a user-reference object.  The whole body
sits in one try-except, so the function itself never raises. -/
def get_jira_field_value (serviceInit : Except String Unit)
    (fieldValue : Except String (Option JiraFieldValue))
    (issue_key field_name : String) : List (String × JVal) :=
  if !truthyStr issue_key || !truthyStr field_name then []
  else
    match serviceInit with
    | .error e => [("error", .str ("Could not get field value: " ++ e))]
    | .ok _ =>
      match fieldValue with
      | .error e => [("error", .str ("Could not get field value: " ++ e))]
      | .ok none => []
      | .ok (some fv) =>
        if field_name == "reporter" then
          match fv with
          | .userRef em =>
            [("reporter", match em with
              | some v => JVal.str v
              | none => JVal.null)]
          | .plain _ => [("reporter", JVal.null)]
        else [(field_name, JVal.obj fv)]

/-! ## Theorems about the tool registry -/

/-- A backend oracle that always succeeds with a customer row. -/
def c6Backend : String → List (String × String) →
    Except String (List (String × String)) :=
  fun _ _ => .ok [("customer_id", "C1"), ("name", "Ada"), ("email", "a@b.com")]

/-- C6 counterexample: with the module-level tool state uninitialized
(`_current_config is None`), `find_customer` on a non-empty email raises
`RuntimeError` (modelled by `Except.error`) instead of returning a mapping
— the registry tools do not unconditionally "never raise". -/
theorem C6_counterexample :
    find_customer { currentConfig := none, service := none } (.ok ())
        c6Backend "a@b.com" ""
      = .error "Database tools not initialized. Call initialize_customer_validation_tools() first." := by
  rfl

lemma call_mcp_tool_wrap {env : MCPEnv} {initR : Except String Unit}
    {backend : String → List (String × String) →
      Except String (List (String × String))}
    {toolName mcpName msg : String} {kwargs : List (String × String)}
    (hc : env.currentConfig = some ()) (hs : env.service = some ())
    (hmap : getMcpToolName toolName = .ok mcpName)
    (hb : backend mcpName kwargs = .error msg) :
    call_mcp_tool env initR backend toolName kwargs
      = .ok [("error", "Could not call " ++ toolName ++ ": " ++ msg)] := by
  unfold call_mcp_tool getMcpService
  rw [hc, hs]
  simp [hmap, hb]

lemma call_mcp_tool_ok {env : MCPEnv} {initR : Except String Unit}
    {backend : String → List (String × String) →
      Except String (List (String × String))}
    {toolName mcpName : String} {kwargs : List (String × String)}
    (hc : env.currentConfig = some ()) (hs : env.service = some ())
    (hmap : getMcpToolName toolName = .ok mcpName) :
    exceptOk (call_mcp_tool env initR backend toolName kwargs) = true := by
  unfold call_mcp_tool getMcpService
  rw [hc, hs]
  cases hb : backend mcpName kwargs <;> simp [hmap, hb, exceptOk]

/-- C6 (amended): (a) every registry tool returns an empty mapping when
its required key arguments are missing or empty, for every backend and
every service state (the backend is never consulted); (b) once the MCP
tool service is initialized, the five database tools never raise — a
backend exception is converted into an `error`-keyed mapping; (c) the
Jira field tool never raises even when uninitialized, converting service
and lookup exceptions into `error`-keyed mappings.  Without initialization
the database tools raise (see the counterexample), as the spec's
configuration-error taxon prescribes. -/
theorem C6_tool_error_contract
    (env : MCPEnv) (initR : Except String Unit)
    (backend : String → List (String × String) →
      Except String (List (String × String)))
    (serviceInit : Except String Unit)
    (fieldValue : Except String (Option JiraFieldValue))
    (issue_key field_name : String) :
    (find_customer env initR backend "" "" = .ok [] ∧
     find_order env initR backend "" = .ok [] ∧
     find_transaction env initR backend "" = .ok [] ∧
     get_transaction_for_order env initR backend "" = .ok [] ∧
     get_refund_for_order env initR backend "" = .ok [] ∧
     get_jira_field_value serviceInit fieldValue "" field_name = [] ∧
     get_jira_field_value serviceInit fieldValue issue_key "" = []) ∧
    (env.currentConfig = some () → env.service = some () →
      (∀ email customer_id,
        exceptOk (find_customer env initR backend email customer_id) = true) ∧
      (∀ order_no, exceptOk (find_order env initR backend order_no) = true) ∧
      (∀ transaction_id,
        exceptOk (find_transaction env initR backend transaction_id) = true) ∧
      (∀ order_no,
        exceptOk (get_transaction_for_order env initR backend order_no) = true) ∧
      (∀ order_no,
        exceptOk (get_refund_for_order env initR backend order_no) = true) ∧
      (∀ email customer_id msg, truthyStr email = true →
        backend "order-management-api___find_customer_api_customer_get"
            [("email", email), ("customer_id", customer_id)] = .error msg →
        find_customer env initR backend email customer_id
          = .ok [("error", "Could not call find_customer: " ++ msg)]) ∧
      (∀ order_no msg, truthyStr order_no = true →
        backend "order-management-api___find_order_api_order_get"
            [("order_no", order_no)] = .error msg →
        find_order env initR backend order_no
          = .ok [("error", "Could not call find_order: " ++ msg)]) ∧
      (∀ transaction_id msg, truthyStr transaction_id = true →
        backend "order-management-api___find_transaction_api_transaction_get"
            [("transaction_id", transaction_id)] = .error msg →
        find_transaction env initR backend transaction_id
          = .ok [("error", "Could not call find_transaction: " ++ msg)]) ∧
      (∀ order_no msg, truthyStr order_no = true →
        backend "order-management-api___get_transaction_for_order_api_transaction_order__order_no__get"
            [("order_no", order_no)] = .error msg →
        get_transaction_for_order env initR backend order_no
          = .ok [("error", "Could not call get_transaction_for_order: " ++ msg)]) ∧
      (∀ order_no msg, truthyStr order_no = true →
        backend "order-management-api___get_refund_for_order_api_refund_order__order_no__get"
            [("order_no", order_no)] = .error msg →
        get_refund_for_order env initR backend order_no
          = .ok [("error", "Could not call get_refund_for_order: " ++ msg)])) ∧
    ((∀ e, serviceInit = .error e → truthyStr issue_key = true →
        truthyStr field_name = true →
        get_jira_field_value serviceInit fieldValue issue_key field_name
          = [("error", .str ("Could not get field value: " ++ e))]) ∧
     (∀ e, serviceInit = .ok () → fieldValue = .error e →
        truthyStr issue_key = true → truthyStr field_name = true →
        get_jira_field_value serviceInit fieldValue issue_key field_name
          = [("error", .str ("Could not get field value: " ++ e))]) ∧
     (serviceInit = .ok () → fieldValue = .ok none →
        get_jira_field_value serviceInit fieldValue issue_key field_name
          = [])) := by
  refine ⟨⟨rfl, rfl, rfl, rfl, rfl, rfl, ?_⟩, ?_, ?_, ?_, ?_⟩
  · unfold get_jira_field_value
    rw [if_pos (by simp [truthyStr, show ("" : String).isEmpty = true from rfl])]
  · intro hc hs
    refine ⟨?_, ?_, ?_, ?_, ?_, ?_, ?_, ?_, ?_, ?_⟩
    · intro email customer_id
      unfold find_customer
      split_ifs
      · rfl
      · exact call_mcp_tool_ok hc hs rfl
    · intro order_no
      unfold find_order
      split_ifs
      · rfl
      · exact call_mcp_tool_ok hc hs rfl
    · intro transaction_id
      unfold find_transaction
      split_ifs
      · rfl
      · exact call_mcp_tool_ok hc hs rfl
    · intro order_no
      unfold get_transaction_for_order
      split_ifs
      · rfl
      · exact call_mcp_tool_ok hc hs rfl
    · intro order_no
      unfold get_refund_for_order
      split_ifs
      · rfl
      · exact call_mcp_tool_ok hc hs rfl
    · intro email customer_id msg he hb
      unfold find_customer
      rw [if_neg (by simp [he])]
      exact call_mcp_tool_wrap hc hs rfl hb
    · intro order_no msg ho hb
      unfold find_order
      rw [if_neg (by simp [ho])]
      exact call_mcp_tool_wrap hc hs rfl hb
    · intro transaction_id msg ht hb
      unfold find_transaction
      rw [if_neg (by simp [ht])]
      exact call_mcp_tool_wrap hc hs rfl hb
    · intro order_no msg ho hb
      unfold get_transaction_for_order
      rw [if_neg (by simp [ho])]
      exact call_mcp_tool_wrap hc hs rfl hb
    · intro order_no msg ho hb
      unfold get_refund_for_order
      rw [if_neg (by simp [ho])]
      exact call_mcp_tool_wrap hc hs rfl hb
  · intro e hsvc hik hfn
    unfold get_jira_field_value
    rw [if_neg (by simp [hik, hfn]), hsvc]
  · intro e hsvc hfv hik hfn
    unfold get_jira_field_value
    rw [if_neg (by simp [hik, hfn]), hsvc, hfv]
  · intro hsvc hfv
    unfold get_jira_field_value
    split_ifs <;> simp [hsvc, hfv]

/-- Witness for C6 (amended) at concrete inputs: an initialized service
with a failing backend, and a failing Jira service. -/
theorem C6_witness :
    find_customer ⟨some (), some ()⟩ (.ok ())
        (fun _ _ => .error "boom") "" "" = .ok [] ∧
    exceptOk (find_customer ⟨some (), some ()⟩ (.ok ())
        (fun _ _ => .error "boom") "a@b.com" "") = true ∧
    find_customer ⟨some (), some ()⟩ (.ok ())
        (fun _ _ => .error "boom") "a@b.com" ""
      = .ok [("error", "Could not call find_customer: boom")] ∧
    get_jira_field_value (.error "no creds")
        (.ok (some (.userRef (some "r@b.com")))) "AS-1" "reporter"
      = [("error", .str "Could not get field value: no creds")] := by
  refine ⟨(C6_tool_error_contract ⟨some (), some ()⟩ (.ok ())
      (fun _ _ => .error "boom") (.error "no creds")
      (.ok (some (.userRef (some "r@b.com")))) "AS-1" "reporter").1.1, ?_, ?_, ?_⟩
  · exact ((C6_tool_error_contract ⟨some (), some ()⟩ (.ok ())
      (fun _ _ => .error "boom") (.error "no creds")
      (.ok (some (.userRef (some "r@b.com")))) "AS-1" "reporter").2.1 rfl rfl).1
      "a@b.com" ""
  · exact (((C6_tool_error_contract ⟨some (), some ()⟩ (.ok ())
      (fun _ _ => .error "boom") (.error "no creds")
      (.ok (some (.userRef (some "r@b.com")))) "AS-1" "reporter").2.1 rfl
      rfl).2.2.2.2.2.1) "a@b.com" "" "boom" (by decide) rfl
  · exact (C6_tool_error_contract ⟨some (), some ()⟩ (.ok ())
      (fun _ _ => .error "boom") (.error "no creds")
      (.ok (some (.userRef (some "r@b.com")))) "AS-1" "reporter").2.2.1
      "no creds" rfl (by decide) (by decide)

end CustomerSupport
